import Mathlib

/-!
# Verification of the secure-communication-system crypto core

Shallow embedding of the repository's crypto and replay-protection logic:

* `CryptoUtils` (frontend `AuthContext.jsx`): base64 helpers
  (`arrayBufferToBase64` / `base64ToArrayBuffer` via `btoa`/`atob`),
  AES-256-GCM `encryptMessage` / `decryptMessage` (the GCM cipher itself is
  modelled parametrically as a keystream XOR plus a 16-byte tag function,
  matching the CTR-plus-tag shape of AES-GCM as invoked through
  `window.crypto.subtle` with `tagLength: 128`).
* the message route (`routes/messages.js`, `POST /messages/send`): nonce
  cache / database checks and the per-ordered-pair sequence counter.
* the key-exchange route (`routes/keyExchange.js`): `respond` freshness
  window, single-use session semantics, expiry handling, and the `confirm`
  endpoint.
* the key-exchange service (frontend `keyExchange.js`): HKDF session-key
  derivation with sessionId-bound salt/info on both the responder and the
  initiator side, and `sendAndVerifyKeyConfirmation`.

Byte strings are `List Nat` with every element `< 256`; JavaScript strings
that only carry opaque identifiers stay Lean `String`s.
-/

/-- UTF-8 encoding of a single character (the per-character behaviour of
JavaScript's `TextEncoder`). -/
def utf8EncodeChar (c : Char) : List Nat :=
  let n := c.toNat
  if n < 128 then [n]
  else if n < 2048 then [192 + n / 64, 128 + n % 64]
  else if n < 65536 then [224 + n / 4096, 128 + n / 64 % 64, 128 + n % 64]
  else [240 + n / 262144, 128 + n / 4096 % 64, 128 + n / 64 % 64, 128 + n % 64]

/-- UTF-8 encoding of a string: the model of `new TextEncoder().encode(s)`. -/
def utf8Encode (s : String) : List Nat :=
  s.data.flatMap utf8EncodeChar

/-- Base64 alphabet: sextet value to ASCII code, as produced by `btoa`. -/
def b64Char (i : Nat) : Nat :=
  if i < 26 then 65 + i
  else if i < 52 then 71 + i
  else if i < 62 then i - 4
  else if i = 62 then 43
  else 47

/-- Inverse of the base64 alphabet: ASCII code to sextet value, as consumed
by `atob`; `none` on characters outside the alphabet. -/
def b64Index (c : Nat) : Option Nat :=
  if 65 ≤ c ∧ c ≤ 90 then some (c - 65)
  else if 97 ≤ c ∧ c ≤ 122 then some (c - 71)
  else if 48 ≤ c ∧ c ≤ 57 then some (c + 4)
  else if c = 43 then some 62
  else if c = 47 then some 63
  else none

/-- Model of `CryptoUtils.arrayBufferToBase64`: bytes to the ASCII codes of
their base64 encoding (61 is the pad character `=`). -/
def arrayBufferToBase64 : List Nat → List Nat
  | [] => []
  | [a] => [b64Char (a / 4), b64Char (a % 4 * 16), 61, 61]
  | [a, b] => [b64Char (a / 4), b64Char (a % 4 * 16 + b / 16), b64Char (b % 16 * 4), 61]
  | a :: b :: c :: rest =>
      b64Char (a / 4) :: b64Char (a % 4 * 16 + b / 16) ::
      b64Char (b % 16 * 4 + c / 64) :: b64Char (c % 64) :: arrayBufferToBase64 rest

/-- Model of `CryptoUtils.base64ToArrayBuffer` (`atob` then byte extraction);
`none` models the exception `atob` throws on malformed input. -/
def base64ToArrayBuffer : List Nat → Option (List Nat)
  | [] => some []
  | c1 :: c2 :: c3 :: c4 :: rest =>
      if c3 = 61 ∧ c4 = 61 ∧ rest = [] then
        match b64Index c1, b64Index c2 with
        | some w, some x => some [w * 4 + x / 16]
        | _, _ => none
      else if c4 = 61 ∧ rest = [] then
        match b64Index c1, b64Index c2, b64Index c3 with
        | some w, some x, some y => some [w * 4 + x / 16, x % 16 * 16 + y / 4]
        | _, _, _ => none
      else
        match b64Index c1, b64Index c2, b64Index c3, b64Index c4, base64ToArrayBuffer rest with
        | some w, some x, some y, some z, some tail =>
            some ((w * 4 + x / 16) :: (x % 16 * 16 + y / 4) :: (y % 4 * 64 + z) :: tail)
        | _, _, _, _, _ => none
  | _ => none

theorem b64Index_b64Char : ∀ i < 64, b64Index (b64Char i) = some i := by decide

theorem b64Char_ne_pad : ∀ i < 64, b64Char i ≠ 61 := by decide

theorem base64_roundtrip :
    ∀ l : List Nat, (∀ b ∈ l, b < 256) → base64ToArrayBuffer (arrayBufferToBase64 l) = some l
  | [], _ => rfl
  | [a], h => by
      have ha : a < 256 := h a (by simp)
      have h1 : b64Index (b64Char (a / 4)) = some (a / 4) := b64Index_b64Char _ (by omega)
      have h2 : b64Index (b64Char (a % 4 * 16)) = some (a % 4 * 16) := b64Index_b64Char _ (by omega)
      simp [arrayBufferToBase64, base64ToArrayBuffer, h1, h2]
      omega
  | [a, b], h => by
      have ha : a < 256 := h a (by simp)
      have hb : b < 256 := h b (by simp)
      have h1 : b64Index (b64Char (a / 4)) = some (a / 4) := b64Index_b64Char _ (by omega)
      have h2 : b64Index (b64Char (a % 4 * 16 + b / 16)) = some (a % 4 * 16 + b / 16) :=
        b64Index_b64Char _ (by omega)
      have h3 : b64Index (b64Char (b % 16 * 4)) = some (b % 16 * 4) := b64Index_b64Char _ (by omega)
      have hp : b64Char (b % 16 * 4) ≠ 61 := b64Char_ne_pad _ (by omega)
      simp [arrayBufferToBase64, base64ToArrayBuffer, h1, h2, h3, hp]
      omega
  | a :: b :: c :: rest, h => by
      have ha : a < 256 := h a (by simp)
      have hb : b < 256 := h b (by simp)
      have hc : c < 256 := h c (by simp)
      have ih := base64_roundtrip rest (fun x hx => h x (by simp [hx]))
      have h1 : b64Index (b64Char (a / 4)) = some (a / 4) := b64Index_b64Char _ (by omega)
      have h2 : b64Index (b64Char (a % 4 * 16 + b / 16)) = some (a % 4 * 16 + b / 16) :=
        b64Index_b64Char _ (by omega)
      have h3 : b64Index (b64Char (b % 16 * 4 + c / 64)) = some (b % 16 * 4 + c / 64) :=
        b64Index_b64Char _ (by omega)
      have h4 : b64Index (b64Char (c % 64)) = some (c % 64) := b64Index_b64Char _ (by omega)
      have hp3 : b64Char (b % 16 * 4 + c / 64) ≠ 61 := b64Char_ne_pad _ (by omega)
      have hp4 : b64Char (c % 64) ≠ 61 := b64Char_ne_pad _ (by omega)
      simp [arrayBufferToBase64, base64ToArrayBuffer, h1, h2, h3, h4, hp3, hp4, ih]
      omega

theorem base64_nil_iff : ∀ l : List Nat, arrayBufferToBase64 l = [] ↔ l = []
  | [] => by simp [arrayBufferToBase64]
  | [a] => by simp [arrayBufferToBase64]
  | [a, b] => by simp [arrayBufferToBase64]
  | a :: b :: c :: rest => by simp [arrayBufferToBase64]

/-- The AES-256-GCM primitive as invoked through `window.crypto.subtle` with
`tagLength: 128`, modelled parametrically: a per-(key, IV) keystream that is
XOR-ed onto the data (the CTR layer) and a 16-byte tag computed from key, IV
and ciphertext (the GHASH/tag layer). -/
structure GCMSpec where
  keystream : Nat → List Nat → Nat → Nat
  tagFn : Nat → List Nat → List Nat → List Nat
  keystream_lt : ∀ k iv i, keystream k iv i < 256
  tagFn_len : ∀ k iv ct, (tagFn k iv ct).length = 16
  tagFn_lt : ∀ k iv ct, ∀ b ∈ tagFn k iv ct, b < 256

/-- XOR a byte list against a keystream starting at stream position `i`. -/
def xorStream (ks : Nat → Nat) : Nat → List Nat → List Nat
  | _, [] => []
  | i, b :: rest => (b ^^^ ks i) :: xorStream ks (i + 1) rest

theorem xorStream_length (ks : Nat → Nat) :
    ∀ i l, (xorStream ks i l).length = l.length
  | _, [] => rfl
  | i, _ :: rest => by simp [xorStream, xorStream_length ks (i + 1) rest]

theorem xorStream_involutive (ks : Nat → Nat) :
    ∀ i l, xorStream ks i (xorStream ks i l) = l
  | _, [] => rfl
  | i, b :: rest => by
      simp [xorStream, xorStream_involutive ks (i + 1) rest, Nat.xor_cancel_right]

theorem xorStream_lt (ks : Nat → Nat) (hks : ∀ i, ks i < 256) :
    ∀ i l, (∀ b ∈ l, b < 256) → ∀ b ∈ xorStream ks i l, b < 256
  | _, [], _ => by simp [xorStream]
  | i, b :: rest, h => by
      simp only [xorStream, List.mem_cons, forall_eq_or_imp]
      constructor
      · have h1 : b < 2 ^ 8 := h b (by simp)
        have h2 : ks i < 2 ^ 8 := hks i
        exact Nat.xor_lt_two_pow h1 h2
      · exact xorStream_lt ks hks (i + 1) rest (fun x hx => h x (by simp [hx]))

/-- AES-GCM encryption as exposed by `window.crypto.subtle.encrypt`: the
returned buffer is ciphertext followed by the 16-byte authentication tag. -/
def aesGcmEncrypt (g : GCMSpec) (key : Nat) (iv pt : List Nat) : List Nat :=
  let ct := xorStream (g.keystream key iv) 0 pt
  ct ++ g.tagFn key iv ct

/-- AES-GCM decryption as exposed by `window.crypto.subtle.decrypt` with
`tagLength: 128`: split off the trailing 16 bytes as tag, recompute and
compare, and only on a match return the decrypted bytes; `none` models the
`OperationError` thrown on tag mismatch or too-short input. -/
def aesGcmDecrypt (g : GCMSpec) (key : Nat) (iv data : List Nat) : Option (List Nat) :=
  if data.length < 16 then none
  else
    let ct := data.take (data.length - 16)
    let tag := data.drop (data.length - 16)
    if g.tagFn key iv ct = tag then some (xorStream (g.keystream key iv) 0 ct) else none

/-- The `{encryptedContent, iv, authTag}` result of `CryptoUtils.encryptMessage`
(each field a base64 string, kept as ASCII codes). -/
structure EncryptedPayload where
  encryptedContent : List Nat
  iv : List Nat
  authTag : List Nat
  deriving DecidableEq, Repr

/-- Model of `CryptoUtils.encryptMessage(message, aesKey)`.  The fresh random
IV produced by `CryptoUtils.generateIV()` on this call enters as the
`ivBytes` argument; the ciphertext buffer is split into `slice(0, -16)`
(data) and `slice(-16)` (tag) exactly as in the source. -/
def encryptMessage (g : GCMSpec) (message : List Nat) (key : Nat) (ivBytes : List Nat) :
    EncryptedPayload :=
  let cta := aesGcmEncrypt g key ivBytes message
  let authTag := cta.drop (cta.length - 16)
  let encryptedData := cta.take (cta.length - 16)
  { encryptedContent := arrayBufferToBase64 encryptedData
    iv := arrayBufferToBase64 ivBytes
    authTag := arrayBufferToBase64 authTag }

inductive DecryptError where
  | invalidEncoding : DecryptError
  | integrityError : DecryptError
  deriving DecidableEq, Repr

/-- Model of `CryptoUtils.decryptMessage(encryptedContent, iv, authTag, aesKey)`:
base64-decode the three fields (a decode failure is the `atob` exception,
raised before the `try` block), re-concatenate data and tag, and decrypt;
the `catch` around `subtle.decrypt` rethrows any failure as the integrity
error, never exposing partial plaintext. -/
def decryptMessage (g : GCMSpec) (encryptedContent iv authTag : List Nat) (key : Nat) :
    Except DecryptError (List Nat) :=
  match base64ToArrayBuffer encryptedContent, base64ToArrayBuffer iv,
      base64ToArrayBuffer authTag with
  | some encryptedData, some ivBuffer, some authTagBuffer =>
      match aesGcmDecrypt g key ivBuffer (encryptedData ++ authTagBuffer) with
      | some plaintext => .ok plaintext
      | none => .error .integrityError
  | _, _, _ => .error .invalidEncoding

theorem append_take_tag (ct tag : List Nat) (htag : tag.length = 16) :
    (ct ++ tag).take ((ct ++ tag).length - 16) = ct := by
  have hlen : (ct ++ tag).length - 16 = ct.length := by
    simp [List.length_append, htag]
  rw [hlen, List.take_left]

theorem append_drop_tag (ct tag : List Nat) (htag : tag.length = 16) :
    (ct ++ tag).drop ((ct ++ tag).length - 16) = tag := by
  have hlen : (ct ++ tag).length - 16 = ct.length := by
    simp [List.length_append, htag]
  rw [hlen, List.drop_left]

/-- C3: for every plaintext byte string and AES-256-GCM session key (over any
instantiation of the GCM primitive), decrypting the
`{encryptedContent, iv, authTag}` triple produced by `encryptMessage` under
the same key succeeds and recovers exactly the plaintext. -/
theorem C3_encrypt_decrypt_roundtrip (g : GCMSpec) (key : Nat) (message ivBytes : List Nat)
    (hmsg : ∀ b ∈ message, b < 256) (hiv : ∀ b ∈ ivBytes, b < 256) :
    decryptMessage g (encryptMessage g message key ivBytes).encryptedContent
      (encryptMessage g message key ivBytes).iv
      (encryptMessage g message key ivBytes).authTag key = .ok message := by
  have hct : ∀ b ∈ xorStream (g.keystream key ivBytes) 0 message, b < 256 :=
    xorStream_lt _ (g.keystream_lt key ivBytes) 0 message hmsg
  have htag16 : (g.tagFn key ivBytes (xorStream (g.keystream key ivBytes) 0 message)).length = 16 :=
    g.tagFn_len key ivBytes _
  have htaglt : ∀ b ∈ g.tagFn key ivBytes (xorStream (g.keystream key ivBytes) 0 message),
      b < 256 := g.tagFn_lt key ivBytes _
  simp only [encryptMessage, aesGcmEncrypt]
  rw [append_take_tag _ _ htag16, append_drop_tag _ _ htag16]
  simp only [decryptMessage, base64_roundtrip _ hct, base64_roundtrip _ hiv,
    base64_roundtrip _ htaglt]
  simp only [aesGcmDecrypt]
  rw [if_neg (by simp [List.length_append, htag16]),
    append_take_tag _ _ htag16, append_drop_tag _ _ htag16, if_pos rfl,
    xorStream_involutive]

/-- C4: whenever GCM tag verification fails on the (well-formed base64)
inputs of `decryptMessage` — a recomputed tag that differs from the
presented one, or a buffer too short to even contain a tag — the result is
exactly the integrity error, and conversely; no plaintext, partial or
otherwise, is ever returned in that case (decryption is all-or-nothing). -/
theorem C4_decrypt_integrity (g : GCMSpec) (key : Nat)
    (encryptedContent iv authTag encryptedData ivBuffer authTagBuffer : List Nat)
    (hec : base64ToArrayBuffer encryptedContent = some encryptedData)
    (hiv : base64ToArrayBuffer iv = some ivBuffer)
    (hat : base64ToArrayBuffer authTag = some authTagBuffer) :
    decryptMessage g encryptedContent iv authTag key = .error .integrityError ↔
      ((encryptedData ++ authTagBuffer).length < 16 ∨
        g.tagFn key ivBuffer
            ((encryptedData ++ authTagBuffer).take
              ((encryptedData ++ authTagBuffer).length - 16)) ≠
          (encryptedData ++ authTagBuffer).drop
            ((encryptedData ++ authTagBuffer).length - 16)) := by
  simp only [decryptMessage, hec, hiv, hat, aesGcmDecrypt]
  split_ifs with hshort htag <;> simp_all [List.length_append]

/-- A concrete (degenerate) instantiation of the GCM primitive, used to
evaluate the codec on explicit inputs. -/
def zeroGCM : GCMSpec where
  keystream := fun _ _ _ => 0
  tagFn := fun _ _ _ => List.replicate 16 0
  keystream_lt := fun _ _ _ => by show (0 : Nat) < 256; omega
  tagFn_len := fun _ _ _ => by simp
  tagFn_lt := fun _ _ _ b hb => by
    have := List.eq_of_mem_replicate hb
    omega

/-- The `n`-th call to `CryptoUtils.encryptMessage`: `generateIV()` draws the
`n`-th output of the random source (`window.crypto.getRandomValues` on a
fresh 12-byte array), and that draw is the IV of this call. -/
def encryptAtCall (g : GCMSpec) (rng : Nat → List Nat) (n : Nat)
    (message : List Nat) (key : Nat) : EncryptedPayload :=
  encryptMessage g message key (rng n)

/-- A random source that returns the same 12 bytes on every draw. -/
def constRng : Nat → List Nat := fun _ => List.replicate 12 0

/-- C9, counterexample: the claim that an IV is never reused under the same
key across any two encryption calls fails — `encryptMessage` takes whatever
12-byte value the random source returns, with no reuse check, so two
distinct calls (call 0 and call 1, same key) whose draws coincide produce
the identical IV. -/
theorem C9_counterexample :
    (0 : Nat) ≠ 1 ∧ (constRng 0).length = 12 ∧ (constRng 1).length = 12 ∧
      (encryptAtCall zeroGCM constRng 0 [] 0).iv = (encryptAtCall zeroGCM constRng 1 [] 0).iv :=
  ⟨by decide, by decide, by decide, rfl⟩

/-- C9, amended: every call to the encrypt operation uses as IV exactly that
call's fresh 12-byte draw from the random source (recoverable from the
payload by base64 decoding), produces a 128-bit (16-byte) authentication
tag, and two calls carry the same IV if and only if the random source
returned the same draw for both. -/
theorem C9_iv_fresh_per_call (g : GCMSpec) (rng : Nat → List Nat) (key : Nat)
    (message message2 : List Nat) (i j : Nat)
    (_hi : (rng i).length = 12) (hbi : ∀ b ∈ rng i, b < 256)
    (_hj : (rng j).length = 12) (hbj : ∀ b ∈ rng j, b < 256) :
    base64ToArrayBuffer (encryptAtCall g rng i message key).iv = some (rng i)
    ∧ ((encryptAtCall g rng i message key).iv = (encryptAtCall g rng j message2 key).iv ↔
        rng i = rng j)
    ∧ ∃ tag, base64ToArrayBuffer (encryptAtCall g rng i message key).authTag = some tag ∧
        tag.length = 16 := by
  have hdec : base64ToArrayBuffer (encryptAtCall g rng i message key).iv = some (rng i) := by
    simp only [encryptAtCall, encryptMessage]
    exact base64_roundtrip _ hbi
  have hdecj : base64ToArrayBuffer (encryptAtCall g rng j message2 key).iv = some (rng j) := by
    simp only [encryptAtCall, encryptMessage]
    exact base64_roundtrip _ hbj
  refine ⟨hdec, ⟨fun h => ?_, fun h => ?_⟩, ?_⟩
  · rw [h] at hdec
    rw [hdec] at hdecj
    exact Option.some_inj.mp hdecj
  · simp only [encryptAtCall, encryptMessage, h]
  · have htag16 := g.tagFn_len key (rng i)
        (xorStream (g.keystream key (rng i)) 0 message)
    have htaglt := g.tagFn_lt key (rng i)
        (xorStream (g.keystream key (rng i)) 0 message)
    refine ⟨g.tagFn key (rng i) (xorStream (g.keystream key (rng i)) 0 message), ?_, htag16⟩
    simp only [encryptAtCall, encryptMessage, aesGcmEncrypt]
    rw [append_drop_tag _ _ htag16]
    exact base64_roundtrip _ htaglt

/-- C9, witness for the amended theorem at a concrete random source, key and
messages. -/
theorem C9_witness :
    base64ToArrayBuffer (encryptAtCall zeroGCM (fun n => List.replicate 12 (n % 256)) 0
        [104, 105] 7).iv = some (List.replicate 12 0)
    ∧ ((encryptAtCall zeroGCM (fun n => List.replicate 12 (n % 256)) 0 [104, 105] 7).iv =
        (encryptAtCall zeroGCM (fun n => List.replicate 12 (n % 256)) 1 [] 7).iv ↔
        List.replicate 12 0 = List.replicate 12 1)
    ∧ ∃ tag, base64ToArrayBuffer (encryptAtCall zeroGCM (fun n => List.replicate 12 (n % 256)) 0
        [104, 105] 7).authTag = some tag ∧ tag.length = 16 :=
  C9_iv_fresh_per_call zeroGCM (fun n => List.replicate 12 (n % 256)) 7 [104, 105] [] 0 1
    (by decide) (by decide) (by decide) (by decide)

/-- C3, witness: round trip at a concrete GCM instance, key, plaintext and IV. -/
theorem C3_witness :
    decryptMessage zeroGCM
      (encryptMessage zeroGCM [104, 105] 0 (List.replicate 12 0)).encryptedContent
      (encryptMessage zeroGCM [104, 105] 0 (List.replicate 12 0)).iv
      (encryptMessage zeroGCM [104, 105] 0 (List.replicate 12 0)).authTag 0 = .ok [104, 105] :=
  C3_encrypt_decrypt_roundtrip zeroGCM 0 [104, 105] (List.replicate 12 0)
    (by decide) (by decide)

/-- C4, witness: a tampered tag (all-ones instead of the recomputed all-zero
tag of `zeroGCM`) makes `decryptMessage` fail with the integrity error. -/
theorem C4_witness :
    decryptMessage zeroGCM (arrayBufferToBase64 [1, 2, 3])
      (arrayBufferToBase64 (List.replicate 12 0))
      (arrayBufferToBase64 (List.replicate 16 1)) 0 = .error .integrityError :=
  (C4_decrypt_integrity zeroGCM 0 (arrayBufferToBase64 [1, 2, 3])
    (arrayBufferToBase64 (List.replicate 12 0)) (arrayBufferToBase64 (List.replicate 16 1))
    [1, 2, 3] (List.replicate 12 0) (List.replicate 16 1)
    (by decide) (by decide) (by decide)).mpr (by decide)

/-! ## The message layer: `POST /messages/send` (routes/messages.js) -/

/-- The request body of `POST /messages/send`.  String fields are absent
exactly when empty (the JavaScript falsiness check `!field`); a JSON body
without a `sequenceNumber` key gives `none` (the `=== undefined` check). -/
structure SendRequest where
  receiverId : String
  encryptedContent : String
  iv : String
  authTag : String
  nonce : String
  sequenceNumber : Option Int
  deriving DecidableEq, Repr

/-- A stored `Message` document (fields relevant to the send route). -/
structure StoredMessage where
  senderId : String
  receiverId : String
  encryptedContent : String
  iv : String
  authTag : String
  nonce : String
  sequenceNumber : Int
  timestamp : Nat
  deriving DecidableEq, Repr

/-- Server-side state consulted and mutated by the send route: the
`recentNonces` in-memory cache, the `Message` collection and the
`MessageCounter` collection (an association list `conversationId ↦ counter`). -/
structure MessageState where
  recentNonces : List String
  messages : List StoredMessage
  counters : List (String × Int)
  deriving DecidableEq, Repr

/-- `MessageCounter.findOne({ conversationId })`. -/
def lookupCounter (cs : List (String × Int)) (k : String) : Option Int :=
  (cs.find? (fun p => p.1 = k)).map (fun p => p.2)

/-- `MessageCounter.findOneAndUpdate({ conversationId }, { $set: { counter } },
{ upsert: true })`. -/
def setCounter (cs : List (String × Int)) (k : String) (v : Int) : List (String × Int) :=
  if (cs.find? (fun p => p.1 = k)).isSome then
    cs.map (fun p => if p.1 = k then (p.1, v) else p)
  else
    cs ++ [(k, v)]

inductive SendOutcome where
  | missingFields : SendOutcome
  | duplicateNonceCache : SendOutcome
  | duplicateNonceDb : SendOutcome
  | badSequence : SendOutcome
  | sent : Int → SendOutcome
  deriving DecidableEq, Repr

/-- Model of the `POST /messages/send` handler body, check for check in
source order: required fields, nonce in the `recentNonces` cache, nonce
already in the `Message` collection, then the per-ordered-pair sequence
check against `counter + 1` (expected `1` when no counter document exists);
on acceptance the counter is `$set` to the submitted number, the message is
saved and the nonce cached. -/
def sendMessage (st : MessageState) (userId : String) (req : SendRequest) (now : Nat) :
    SendOutcome × MessageState :=
  if req.receiverId = "" ∨ req.encryptedContent = "" ∨ req.iv = "" ∨ req.authTag = "" ∨
      req.nonce = "" ∨ req.sequenceNumber = none then
    (.missingFields, st)
  else if req.nonce ∈ st.recentNonces then
    (.duplicateNonceCache, st)
  else if st.messages.any (fun m => m.nonce = req.nonce) then
    (.duplicateNonceDb, st)
  else
    let senderKey := userId ++ "_to_" ++ req.receiverId
    let expected : Int :=
      match lookupCounter st.counters senderKey with
      | some c => c + 1
      | none => 1
    let seq : Int := req.sequenceNumber.getD 0
    if seq ≠ expected then
      (.badSequence, st)
    else
      let st1 : MessageState := { st with counters := setCounter st.counters senderKey seq }
      let msg : StoredMessage :=
        { senderId := userId, receiverId := req.receiverId,
          encryptedContent := req.encryptedContent, iv := req.iv, authTag := req.authTag,
          nonce := req.nonce, sequenceNumber := seq, timestamp := now }
      let st2 : MessageState :=
        { st1 with
          messages := st1.messages ++ [msg]
          recentNonces := st1.recentNonces ++ [req.nonce] }
      (.sent seq, st2)

theorem setCounter_cons_ne (p : String × Int) (rest : List (String × Int)) (k : String)
    (v : Int) (hp : p.1 ≠ k) : setCounter (p :: rest) k v = p :: setCounter rest k v := by
  simp only [setCounter, List.find?_cons]
  have hdec : (decide (p.1 = k)) = false := by simp [hp]
  simp only [hdec]
  by_cases h : (rest.find? (fun q => decide (q.1 = k))).isSome
  · simp [h, hp]
  · simp [h, hp]

theorem lookupCounter_setCounter (k : String) (v : Int) :
    ∀ cs : List (String × Int), lookupCounter (setCounter cs k v) k = some v
  | [] => by simp [setCounter, lookupCounter]
  | p :: rest => by
      by_cases hp : p.1 = k
      · simp [setCounter, lookupCounter, List.find?_cons, hp]
      · rw [setCounter_cons_ne p rest k v hp]
        have hdec : (decide (p.1 = k)) = false := by simp [hp]
        simp only [lookupCounter, List.find?_cons, hdec]
        exact lookupCounter_setCounter k v rest

/-- The `expectedSequence` computation of `POST /messages/send`: the stored
counter for the ordered pair plus 1, or 1 when no counter document exists. -/
def expectedSequence (st : MessageState) (userId receiverId : String) : Int :=
  match lookupCounter st.counters (userId ++ "_to_" ++ receiverId) with
  | some c => c + 1
  | none => 1

theorem sendMessage_dupCache (st : MessageState) (userId : String) (req : SendRequest)
    (now : Nat)
    (hfields : ¬(req.receiverId = "" ∨ req.encryptedContent = "" ∨ req.iv = "" ∨
      req.authTag = "" ∨ req.nonce = "" ∨ req.sequenceNumber = none))
    (hcache : req.nonce ∈ st.recentNonces) :
    sendMessage st userId req now = (.duplicateNonceCache, st) := by
  unfold sendMessage
  rw [if_neg hfields, if_pos hcache]

theorem sendMessage_dupDb (st : MessageState) (userId : String) (req : SendRequest)
    (now : Nat)
    (hfields : ¬(req.receiverId = "" ∨ req.encryptedContent = "" ∨ req.iv = "" ∨
      req.authTag = "" ∨ req.nonce = "" ∨ req.sequenceNumber = none))
    (hcache : req.nonce ∉ st.recentNonces)
    (hany : st.messages.any (fun m => m.nonce = req.nonce) = true) :
    sendMessage st userId req now = (.duplicateNonceDb, st) := by
  unfold sendMessage
  rw [if_neg hfields, if_neg hcache, if_pos hany]

theorem sendMessage_checked (st : MessageState) (userId : String) (req : SendRequest)
    (now : Nat) (seq : Int)
    (hfields : ¬(req.receiverId = "" ∨ req.encryptedContent = "" ∨ req.iv = "" ∨
      req.authTag = "" ∨ req.nonce = "" ∨ req.sequenceNumber = none))
    (hcache : req.nonce ∉ st.recentNonces)
    (hany : st.messages.any (fun m => m.nonce = req.nonce) = false)
    (hseq : req.sequenceNumber = some seq) :
    sendMessage st userId req now =
      if seq = expectedSequence st userId req.receiverId then
        (.sent seq,
          { recentNonces := st.recentNonces ++ [req.nonce]
            messages := st.messages ++
              [{ senderId := userId, receiverId := req.receiverId,
                 encryptedContent := req.encryptedContent, iv := req.iv,
                 authTag := req.authTag, nonce := req.nonce, sequenceNumber := seq,
                 timestamp := now }]
            counters := setCounter st.counters (userId ++ "_to_" ++ req.receiverId) seq })
      else (.badSequence, st) := by
  unfold sendMessage expectedSequence
  rw [if_neg hfields, if_neg hcache, if_neg (by simp [hany])]
  simp only [hseq, Option.getD_some]
  by_cases hm : seq = (match lookupCounter st.counters (userId ++ "_to_" ++ req.receiverId) with
    | some c => c + 1
    | none => 1 : Int)
  · rw [if_neg (by simpa using hm), if_pos hm]
  · rw [if_pos (by simpa using hm), if_neg hm]

/-- C1: with the earlier checks passing (all fields present, nonce fresh in
both cache and database), the send route accepts a message exactly when its
sequence number equals the ordered (sender, receiver) pair's stored counter
plus 1 (expected 1 when no counter exists); on acceptance the pair's
counter is set to that sequence number, and on a mismatch the request is
rejected with the bad-sequence error and the entire state — counter
included — is untouched. -/
theorem C1_sequence_gate (st : MessageState) (userId : String) (req : SendRequest)
    (now : Nat) (seq : Int)
    (hrecv : req.receiverId ≠ "") (henc : req.encryptedContent ≠ "") (hiv : req.iv ≠ "")
    (htag : req.authTag ≠ "") (hnonce : req.nonce ≠ "")
    (hseq : req.sequenceNumber = some seq)
    (hcache : req.nonce ∉ st.recentNonces)
    (hdb : ∀ m ∈ st.messages, m.nonce ≠ req.nonce) :
    ((sendMessage st userId req now).1 = .sent seq ↔
        seq = expectedSequence st userId req.receiverId)
    ∧ (seq = expectedSequence st userId req.receiverId →
        lookupCounter (sendMessage st userId req now).2.counters
          (userId ++ "_to_" ++ req.receiverId) = some seq)
    ∧ (seq ≠ expectedSequence st userId req.receiverId →
        sendMessage st userId req now = (.badSequence, st)) := by
  have hfields : ¬(req.receiverId = "" ∨ req.encryptedContent = "" ∨ req.iv = "" ∨
      req.authTag = "" ∨ req.nonce = "" ∨ req.sequenceNumber = none) := by
    simp [hrecv, henc, hiv, htag, hnonce, hseq]
  have hany : st.messages.any (fun m => m.nonce = req.nonce) = false := by
    simp only [List.any_eq_false, decide_eq_true_eq]
    exact hdb
  have key := sendMessage_checked st userId req now seq hfields hcache hany hseq
  by_cases hm : seq = expectedSequence st userId req.receiverId
  · rw [key, if_pos hm]
    exact ⟨iff_of_true rfl hm, fun _ => lookupCounter_setCounter _ _ _,
      fun hc => absurd hm hc⟩
  · rw [key, if_neg hm]
    exact ⟨iff_of_false (by simp) hm, fun h => absurd h hm, fun _ => rfl⟩

/-- C1, witness: counter at 5 for the pair `alice → bob`; a submission with
sequence number 6 is accepted and sets the counter to 6. -/
theorem C1_witness :
    ((sendMessage ⟨[], [], [("alice_to_bob", 5)]⟩ "alice"
        ⟨"bob", "ct", "iv", "tag", "n1", some 6⟩ 0).1 = .sent 6 ↔
      (6 : Int) = expectedSequence ⟨[], [], [("alice_to_bob", 5)]⟩ "alice" "bob")
    ∧ ((6 : Int) = expectedSequence ⟨[], [], [("alice_to_bob", 5)]⟩ "alice" "bob" →
        lookupCounter (sendMessage ⟨[], [], [("alice_to_bob", 5)]⟩ "alice"
          ⟨"bob", "ct", "iv", "tag", "n1", some 6⟩ 0).2.counters ("alice" ++ "_to_" ++ "bob") =
          some 6)
    ∧ ((6 : Int) ≠ expectedSequence ⟨[], [], [("alice_to_bob", 5)]⟩ "alice" "bob" →
        sendMessage ⟨[], [], [("alice_to_bob", 5)]⟩ "alice"
          ⟨"bob", "ct", "iv", "tag", "n1", some 6⟩ 0 =
          (.badSequence, ⟨[], [], [("alice_to_bob", 5)]⟩)) :=
  C1_sequence_gate ⟨[], [], [("alice_to_bob", 5)]⟩ "alice"
    ⟨"bob", "ct", "iv", "tag", "n1", some 6⟩ 0 6
    (by decide) (by decide) (by decide) (by decide) (by decide) rfl
    (by simp) (by simp)

/-- C2: (i) a submission whose nonce was already admitted — present in the
`recentNonces` cache or stored with a previous message — is rejected as a
replay with the state untouched, and this happens whatever its sequence
number is (the nonce checks run before the sequence check); (ii) after a
successful send, resubmitting the identical request (same ciphertext, iv,
authTag and nonce) is rejected as a duplicate nonce even though the first
submission succeeded. -/
theorem C2_nonce_replay (st : MessageState) (userId : String) (req : SendRequest)
    (now now2 : Nat)
    (hrecv : req.receiverId ≠ "") (henc : req.encryptedContent ≠ "") (hiv : req.iv ≠ "")
    (htag : req.authTag ≠ "") (hnonce : req.nonce ≠ "")
    (hsome : req.sequenceNumber ≠ none) :
    ((req.nonce ∈ st.recentNonces ∨ ∃ m ∈ st.messages, m.nonce = req.nonce) →
        (sendMessage st userId req now).2 = st ∧
        ((sendMessage st userId req now).1 = .duplicateNonceCache ∨
          (sendMessage st userId req now).1 = .duplicateNonceDb))
    ∧ (∀ s st2, sendMessage st userId req now = (.sent s, st2) →
        sendMessage st2 userId req now2 = (.duplicateNonceCache, st2)) := by
  have hfields : ¬(req.receiverId = "" ∨ req.encryptedContent = "" ∨ req.iv = "" ∨
      req.authTag = "" ∨ req.nonce = "" ∨ req.sequenceNumber = none) := by
    simp [hrecv, henc, hiv, htag, hnonce, hsome]
  constructor
  · intro hdup
    by_cases hcache : req.nonce ∈ st.recentNonces
    · rw [sendMessage_dupCache st userId req now hfields hcache]
      exact ⟨rfl, Or.inl rfl⟩
    · have hdb : ∃ m ∈ st.messages, m.nonce = req.nonce := by
        rcases hdup with h | h
        · exact absurd h hcache
        · exact h
      have hany : st.messages.any (fun m => m.nonce = req.nonce) = true := by
        simp only [List.any_eq_true, decide_eq_true_eq]
        exact hdb
      rw [sendMessage_dupDb st userId req now hfields hcache hany]
      exact ⟨rfl, Or.inr rfl⟩
  · intro s st2 hsent
    by_cases hcache : req.nonce ∈ st.recentNonces
    · rw [sendMessage_dupCache st userId req now hfields hcache] at hsent
      simp at hsent
    by_cases hany : st.messages.any (fun m => m.nonce = req.nonce) = true
    · rw [sendMessage_dupDb st userId req now hfields hcache hany] at hsent
      simp at hsent
    rcases hs : req.sequenceNumber with _ | seq
    · exact absurd hs hsome
    rw [sendMessage_checked st userId req now seq hfields hcache
      (by simpa using hany) hs] at hsent
    by_cases hm : seq = expectedSequence st userId req.receiverId
    · rw [if_pos hm] at hsent
      cases hsent
      exact sendMessage_dupCache _ userId req now2 hfields (by simp)
    · rw [if_neg hm] at hsent
      simp at hsent

/-- C2, witness: nonce `n1` already in the recent-nonce cache; the
submission is rejected as a replay with the state untouched. -/
theorem C2_witness :
    ((("n1" : String) ∈ (["n1"] : List String) ∨
        ∃ m ∈ ([] : List StoredMessage), m.nonce = "n1") →
      (sendMessage ⟨["n1"], [], []⟩ "alice" ⟨"bob", "ct", "iv", "tag", "n1", some 1⟩ 0).2 =
          ⟨["n1"], [], []⟩ ∧
        ((sendMessage ⟨["n1"], [], []⟩ "alice"
            ⟨"bob", "ct", "iv", "tag", "n1", some 1⟩ 0).1 = .duplicateNonceCache ∨
          (sendMessage ⟨["n1"], [], []⟩ "alice"
            ⟨"bob", "ct", "iv", "tag", "n1", some 1⟩ 0).1 = .duplicateNonceDb))
    ∧ (∀ s st2, sendMessage ⟨["n1"], [], []⟩ "alice"
          ⟨"bob", "ct", "iv", "tag", "n1", some 1⟩ 0 = (.sent s, st2) →
        sendMessage st2 "alice" ⟨"bob", "ct", "iv", "tag", "n1", some 1⟩ 1 =
          (.duplicateNonceCache, st2)) :=
  C2_nonce_replay ⟨["n1"], [], []⟩ "alice" ⟨"bob", "ct", "iv", "tag", "n1", some 1⟩ 0 1
    (by decide) (by decide) (by decide) (by decide) (by decide) (by decide)

/-! ## The key-exchange routes (routes/keyExchange.js) -/

/-- A `KeyExchange` document.  `status` is a string constrained by the
schema enum (see `keyExchangeStatusEnum`); responder fields are nullable
until a response arrives. -/
structure KESession where
  initiatorId : String
  responderId : String
  initiatorPublicKey : String
  responderPublicKey : Option String
  initiatorSignature : String
  responderSignature : Option String
  status : String
  sessionId : String
  timestamp : Int
  expiresAt : Int
  confirmationReceived : Bool
  confirmationTimestamp : Option Int
  deriving DecidableEq, Repr

/-- The `status` enum of `keyExchangeSchema`:
`enum: ['pending', 'completed', 'failed']`. -/
def keyExchangeStatusEnum : List String := ["pending", "completed", "failed"]

/-- The `KeyExchange` collection. -/
structure KEState where
  sessions : List KESession
  deriving DecidableEq, Repr

/-- Replace the first element satisfying `p` (the single document returned
by `findOne` and then mutated and saved). -/
def updateFirst (p : KESession → Bool) (f : KESession → KESession) :
    List KESession → List KESession
  | [] => []
  | s :: rest => if p s then f s :: rest else s :: updateFirst p f rest

/-- The request body of `POST /key-exchange/respond`.  `timestamp` is absent
exactly when 0 (JavaScript falsiness of the number `0`). -/
structure RespondRequest where
  sessionId : String
  publicKey : String
  signature : String
  timestamp : Int
  deriving DecidableEq, Repr

inductive RespondOutcome where
  | missingFields : RespondOutcome
  | staleTimestamp : RespondOutcome
  | notFound : RespondOutcome
  | sessionExpired : RespondOutcome
  | ok : String → String → RespondOutcome
  deriving DecidableEq, Repr

/-- The `findOne` filter of the respond handler:
`{ sessionId, responderId: req.userId, status: 'pending' }`. -/
def respondFilter (sessionId userId : String) (s : KESession) : Bool :=
  s.sessionId = sessionId && s.responderId = userId && s.status = "pending"

/-- `maxAge` in the key-exchange handlers: 5 minutes in milliseconds. -/
def keyExchangeMaxAge : Int := 5 * 60 * 1000

/-- Model of the `POST /key-exchange/respond` handler: required fields, the
`Math.abs(now - messageTime) > maxAge` freshness window, the
`findOne({sessionId, responderId, status: 'pending'})` lookup (404 when
nothing matches), the `new Date() > expiresAt` expiry check (which marks
the session `failed` and rejects), then the response proper (fills the
responder fields, sets status `completed`, returns the initiator's public
key and signature). -/
def respond (st : KEState) (userId : String) (req : RespondRequest) (now : Int) :
    RespondOutcome × KEState :=
  if req.sessionId = "" ∨ req.publicKey = "" ∨ req.signature = "" ∨ req.timestamp = 0 then
    (.missingFields, st)
  else if (now - req.timestamp).natAbs > keyExchangeMaxAge.toNat then
    (.staleTimestamp, st)
  else
    match st.sessions.find? (respondFilter req.sessionId userId) with
    | none => (.notFound, st)
    | some ke =>
      if now > ke.expiresAt then
        (.sessionExpired,
          ⟨updateFirst (respondFilter req.sessionId userId)
            (fun s => { s with status := "failed" }) st.sessions⟩)
      else
        (.ok ke.initiatorPublicKey ke.initiatorSignature,
          ⟨updateFirst (respondFilter req.sessionId userId)
            (fun s =>
              { s with
                responderPublicKey := some req.publicKey
                responderSignature := some req.signature
                status := "completed" }) st.sessions⟩)

theorem mem_updateFirst (p : KESession → Bool) (f : KESession → KESession) :
    ∀ l s2, s2 ∈ updateFirst p f l → s2 ∈ l ∨ ∃ s ∈ l, s2 = f s
  | [], s2, h => by simp [updateFirst] at h
  | s :: rest, s2, h => by
      simp only [updateFirst] at h
      by_cases hp : p s
      · rw [if_pos hp] at h
        rcases List.mem_cons.mp h with h | h
        · exact Or.inr ⟨s, by simp, h⟩
        · exact Or.inl (List.mem_cons_of_mem s h)
      · rw [if_neg hp] at h
        rcases List.mem_cons.mp h with h | h
        · exact Or.inl (h ▸ List.mem_cons_self s rest)
        · rcases mem_updateFirst p f rest s2 h with h2 | ⟨s3, hs3, he⟩
          · exact Or.inl (List.mem_cons_of_mem s h2)
          · exact Or.inr ⟨s3, List.mem_cons_of_mem s hs3, he⟩

/-- C6: (i) a respond request whose timestamp differs from the server's
current time by more than the fixed 5-minute window is rejected with the
freshness error and the state is returned untouched — the conclusion holds
for every session store, so no session state is consulted or changed;
(ii) a request within the window (e.g. `now - 4 minutes`) passes the
freshness check: whatever else happens, the outcome is not the freshness
rejection. -/
theorem C6_freshness_window (st : KEState) (userId : String) (req : RespondRequest)
    (now : Int)
    (hsid : req.sessionId ≠ "") (hpk : req.publicKey ≠ "") (hsig : req.signature ≠ "")
    (hts : req.timestamp ≠ 0) :
    ((now - req.timestamp).natAbs > keyExchangeMaxAge.toNat →
        respond st userId req now = (.staleTimestamp, st))
    ∧ ((now - req.timestamp).natAbs ≤ keyExchangeMaxAge.toNat →
        (respond st userId req now).1 ≠ .staleTimestamp) := by
  have hfields : ¬(req.sessionId = "" ∨ req.publicKey = "" ∨ req.signature = "" ∨
      req.timestamp = 0) := by
    simp [hsid, hpk, hsig, hts]
  constructor
  · intro hstale
    unfold respond
    rw [if_neg hfields, if_pos hstale]
  · intro hfresh
    unfold respond
    rw [if_neg hfields, if_neg (by omega)]
    rcases hfind : st.sessions.find? (respondFilter req.sessionId userId) with _ | ke
    · simp
    · by_cases hexp : now > ke.expiresAt
      · simp [hexp]
      · simp [hexp]

/-- C6, witness: with the window at 5 minutes, a request stamped 4 minutes
ago passes the freshness check (and a stale one would be rejected with the
state untouched). -/
theorem C6_witness :
    ((1000000 - (1000000 - 240000 : Int)).natAbs > keyExchangeMaxAge.toNat →
        respond ⟨[]⟩ "bob" ⟨"s1", "pk", "sig", 1000000 - 240000⟩ 1000000 =
          (.staleTimestamp, ⟨[]⟩))
    ∧ ((1000000 - (1000000 - 240000 : Int)).natAbs ≤ keyExchangeMaxAge.toNat →
        (respond ⟨[]⟩ "bob" ⟨"s1", "pk", "sig", 1000000 - 240000⟩ 1000000).1 ≠
          .staleTimestamp) :=
  C6_freshness_window ⟨[]⟩ "bob" ⟨"s1", "pk", "sig", 1000000 - 240000⟩ 1000000
    (by decide) (by decide) (by decide) (by decide)

/-- C7: a respond call against a session that is already terminal — every
record carrying the requested sessionId has status `completed` or `failed`
— is rejected with the not-found error and the session store is returned
unmodified: a session transitions to a terminal response exactly once. -/
theorem C7_terminal_single_use (st : KEState) (userId : String) (req : RespondRequest)
    (now : Int)
    (hsid : req.sessionId ≠ "") (hpk : req.publicKey ≠ "") (hsig : req.signature ≠ "")
    (hts : req.timestamp ≠ 0)
    (hfresh : (now - req.timestamp).natAbs ≤ keyExchangeMaxAge.toNat)
    (hterm : ∀ s ∈ st.sessions, s.sessionId = req.sessionId →
      s.status = "completed" ∨ s.status = "failed") :
    respond st userId req now = (.notFound, st) := by
  have hfields : ¬(req.sessionId = "" ∨ req.publicKey = "" ∨ req.signature = "" ∨
      req.timestamp = 0) := by
    simp [hsid, hpk, hsig, hts]
  have hnone : st.sessions.find? (respondFilter req.sessionId userId) = none := by
    rw [List.find?_eq_none]
    intro s hs
    simp only [respondFilter, Bool.and_eq_true, decide_eq_true_eq, not_and]
    intro h12 hpend
    rcases hterm s hs h12.1 with h | h <;> rw [h] at hpend <;> exact absurd hpend (by decide)
  unfold respond
  rw [if_neg hfields, if_neg (by omega), hnone]

/-- A concrete already-completed session. -/
def completedSession : KESession :=
  { initiatorId := "alice", responderId := "bob", initiatorPublicKey := "ipk",
    responderPublicKey := some "rpk", initiatorSignature := "isig",
    responderSignature := some "rsig", status := "completed", sessionId := "s1",
    timestamp := 0, expiresAt := 1000000, confirmationReceived := false,
    confirmationTimestamp := none }

/-- C7, witness: responding to an already-completed session yields the
not-found rejection and leaves the store unchanged. -/
theorem C7_witness :
    respond ⟨[completedSession]⟩ "bob" ⟨"s1", "pk", "sig", 900000⟩ 1000000 =
      (.notFound, ⟨[completedSession]⟩) :=
  C7_terminal_single_use ⟨[completedSession]⟩ "bob" ⟨"s1", "pk", "sig", 900000⟩ 1000000
    (by decide) (by decide) (by decide) (by decide) (by decide) (by decide)

/-- A concrete pending session already past its `expiresAt`. -/
def expiredPendingSession : KESession :=
  { initiatorId := "alice", responderId := "bob", initiatorPublicKey := "ipk",
    responderPublicKey := none, initiatorSignature := "isig", responderSignature := none,
    status := "pending", sessionId := "s2", timestamp := 0, expiresAt := 1000,
    confirmationReceived := false, confirmationTimestamp := none }

/-- C8, counterexample: the schema's status enum has no `expired` value, and
responding to a pending session found past its `expiresAt` stores status
`failed` — not an `Expired` status — so the claimed four-valued status set
with expiry-as-Expired does not match the code. -/
theorem C8_counterexample :
    ("expired" ∉ keyExchangeStatusEnum)
    ∧ (respond ⟨[expiredPendingSession]⟩ "bob" ⟨"s2", "pk", "sig", 1500⟩ 2000).1 =
        .sessionExpired
    ∧ (respond ⟨[expiredPendingSession]⟩ "bob" ⟨"s2", "pk", "sig", 1500⟩ 2000).2 =
        ⟨[{ expiredPendingSession with status := "failed" }]⟩
    ∧ ({ expiredPendingSession with status := "failed" } : KESession).status ≠ "expired" := by
  refine ⟨by decide, by decide, by decide, by decide⟩

/-- C8, amended: every status the respond handler ever stores lies in the
schema's three-valued enum `{pending, completed, failed}` (there is no
`Expired` status value), and a pending session found past its `expiresAt`
is not responded to as pending: the call is rejected with the
session-expired error and the record's status is set to `failed`. -/
theorem C8_status_enum (st : KEState) (userId : String) (req : RespondRequest) (now : Int) :
    ((∀ s ∈ st.sessions, s.status ∈ keyExchangeStatusEnum) →
        ∀ s ∈ (respond st userId req now).2.sessions, s.status ∈ keyExchangeStatusEnum)
    ∧ (∀ ke, st.sessions.find? (respondFilter req.sessionId userId) = some ke →
        req.sessionId ≠ "" → req.publicKey ≠ "" → req.signature ≠ "" → req.timestamp ≠ 0 →
        (now - req.timestamp).natAbs ≤ keyExchangeMaxAge.toNat →
        now > ke.expiresAt →
        (respond st userId req now).1 = .sessionExpired ∧
        (respond st userId req now).2.sessions =
          updateFirst (respondFilter req.sessionId userId)
            (fun s => { s with status := "failed" }) st.sessions) := by
  constructor
  · intro hP s hs
    unfold respond at hs
    split_ifs at hs
    · exact hP s hs
    · exact hP s hs
    · rcases hfind : st.sessions.find? (respondFilter req.sessionId userId) with _ | ke
      · simp only [hfind] at hs
        exact hP s hs
      · simp only [hfind] at hs
        by_cases hexp : now > ke.expiresAt
        · rw [if_pos hexp] at hs
          rcases mem_updateFirst _ _ st.sessions s hs with h | ⟨s0, _, he⟩
          · exact hP s h
          · rw [he]
            simp [keyExchangeStatusEnum]
        · rw [if_neg hexp] at hs
          rcases mem_updateFirst _ _ st.sessions s hs with h | ⟨s0, _, he⟩
          · exact hP s h
          · rw [he]
            simp [keyExchangeStatusEnum]
  · intro ke hfind hsid hpk hsig hts hfresh hexp
    have hfields : ¬(req.sessionId = "" ∨ req.publicKey = "" ∨ req.signature = "" ∨
        req.timestamp = 0) := by
      simp [hsid, hpk, hsig, hts]
    unfold respond
    rw [if_neg hfields, if_neg (by omega)]
    simp only [hfind]
    rw [if_pos hexp]
    exact ⟨rfl, rfl⟩

/-- C8, witness for the amended theorem: the concrete expired pending
session is rejected as expired and stored with status `failed`. -/
theorem C8_witness :
    (respond ⟨[expiredPendingSession]⟩ "bob" ⟨"s2", "pk", "sig", 1500⟩ 2000).1 =
        .sessionExpired
    ∧ (respond ⟨[expiredPendingSession]⟩ "bob" ⟨"s2", "pk", "sig", 1500⟩ 2000).2.sessions =
        updateFirst (respondFilter "s2" "bob") (fun s => { s with status := "failed" })
          [expiredPendingSession] :=
  (C8_status_enum ⟨[expiredPendingSession]⟩ "bob" ⟨"s2", "pk", "sig", 1500⟩ 2000).2
    expiredPendingSession (by decide) (by decide) (by decide) (by decide) (by decide)
    (by decide) (by decide)

/-! ## Session-key derivation (frontend services/keyExchange.js) -/

/-- Model of `CryptoUtils.deriveAESKey(sharedSecret, salt, info)`: HKDF with
SHA-256 over the shared secret, parametric in the HKDF function itself;
the `info` string is UTF-8 encoded inside the function (`infoBuffer`),
the salt arrives already encoded by the caller. -/
def deriveAESKey (hkdf : List Nat → List Nat → List Nat → Nat)
    (sharedSecret salt : List Nat) (info : String) : Nat :=
  hkdf sharedSecret salt (utf8Encode info)

/-- The session-key derivation performed by `respondToKeyExchange` (responder
side): ECDH between the responder's ephemeral private key and the
initiator's ephemeral public key, then HKDF with
`salt = "salt-" + sessionId` and `info = "session-" + sessionId`. -/
def respondDeriveSessionKey (ecdh : Nat → Nat → List Nat)
    (hkdf : List Nat → List Nat → List Nat → Nat)
    (myEphemeralPrivate initiatorECDHPublicKey : Nat) (sessionId : String) : Nat :=
  let sharedSecret := ecdh myEphemeralPrivate initiatorECDHPublicKey
  let salt := utf8Encode ("salt-" ++ sessionId)
  deriveAESKey hkdf sharedSecret salt ("session-" ++ sessionId)

/-- The session-key derivation performed by `completeKeyExchange` (initiator
side): ECDH between the initiator's stored ephemeral private key and the
responder's ephemeral public key, then HKDF with
`salt = "salt-" + sessionId` and `info = "session-" + sessionId`. -/
def completeDeriveSessionKey (ecdh : Nat → Nat → List Nat)
    (hkdf : List Nat → List Nat → List Nat → Nat)
    (ecdhPrivateKey responderECDHPublicKey : Nat) (sessionId : String) : Nat :=
  let sharedSecret := ecdh ecdhPrivateKey responderECDHPublicKey
  let salt := utf8Encode ("salt-" ++ sessionId)
  deriveAESKey hkdf sharedSecret salt ("session-" ++ sessionId)

/-- C5: the responder's and the initiator's derivations both bind salt and
info to the sessionId (`"salt-" + sessionId`, `"session-" + sessionId`), so
whenever the two ECDH computations agree (ECDH symmetry:
`Derive(B.priv, A.pub) = Derive(A.priv, B.pub)`), the two parties derive
the identical session key — for every HKDF instantiation. -/
theorem C5_session_key_agreement (ecdh : Nat → Nat → List Nat)
    (hkdf : List Nat → List Nat → List Nat → Nat) (sessionId : String)
    (initiatorPriv initiatorPub responderPriv responderPub : Nat)
    (hsym : ecdh responderPriv initiatorPub = ecdh initiatorPriv responderPub) :
    respondDeriveSessionKey ecdh hkdf responderPriv initiatorPub sessionId =
      completeDeriveSessionKey ecdh hkdf initiatorPriv responderPub sessionId := by
  unfold respondDeriveSessionKey completeDeriveSessionKey deriveAESKey
  rw [hsym]

/-- C5, witness: a concrete symmetric ECDH function and a concrete HKDF give
the same key on both sides. -/
theorem C5_witness :
    respondDeriveSessionKey (fun a b => [a + b])
      (fun s salt info => s.sum + salt.length + info.length) 3 2 "sess" =
      completeDeriveSessionKey (fun a b => [a + b])
        (fun s salt info => s.sum + salt.length + info.length) 1 4 "sess" :=
  C5_session_key_agreement (fun a b => [a + b])
    (fun s salt info => s.sum + salt.length + info.length) "sess" 1 2 3 4 rfl

/-! ## Key confirmation (`POST /key-exchange/confirm` and the frontend
`sendAndVerifyKeyConfirmation`) -/

/-- The request body of `POST /key-exchange/confirm`; string fields are
absent exactly when empty. -/
structure ConfirmRequest where
  userId : String
  sessionId : String
  encryptedConfirmation : String
  iv : String
  authTag : String
  deriving DecidableEq, Repr

inductive ConfirmOutcome where
  | missingFields : ConfirmOutcome
  | notFound : ConfirmOutcome
  | confirmed : ConfirmOutcome
  deriving DecidableEq, Repr

/-- The `findOne` filter of the confirm handler: matching sessionId, status
`completed`, and the two parties in either role order. -/
def confirmFilter (sessionId reqUserId bodyUserId : String) (s : KESession) : Bool :=
  s.sessionId = sessionId && s.status = "completed" &&
    ((s.initiatorId = reqUserId && s.responderId = bodyUserId) ||
      (s.responderId = reqUserId && s.initiatorId = bodyUserId))

/-- Model of the `POST /key-exchange/confirm` handler: required fields, the
completed-session lookup, then `confirmationReceived := true` with a
confirmation timestamp.  The `encryptedConfirmation`, `iv` and `authTag`
values are checked for presence only — never decrypted, validated or even
stored. -/
def confirm (st : KEState) (reqUserId : String) (req : ConfirmRequest) (now : Int) :
    ConfirmOutcome × KEState :=
  if req.userId = "" ∨ req.sessionId = "" ∨ req.encryptedConfirmation = "" ∨
      req.iv = "" ∨ req.authTag = "" then
    (.missingFields, st)
  else
    match st.sessions.find? (confirmFilter req.sessionId reqUserId req.userId) with
    | none => (.notFound, st)
    | some _ =>
      (.confirmed,
        ⟨updateFirst (confirmFilter req.sessionId reqUserId req.userId)
          (fun s =>
            { s with
              confirmationReceived := true
              confirmationTimestamp := some now }) st.sessions⟩)

/-- ASCII codes to a Lean string (the payload fields travel as strings). -/
def stringOfCodes (l : List Nat) : String :=
  String.mk (l.map Char.ofNat)

/-- Model of the frontend `sendAndVerifyKeyConfirmation(userId, sessionKey,
sessionId)`: builds `KEY_CONFIRMATION_{sessionId}_{Date.now()}`, encrypts it
under the local session key with this call's fresh IV, posts the three
encrypted fields to the confirm endpoint, and returns `true` exactly when
the post succeeds (any HTTP error is caught and turned into `false`). -/
def sendAndVerifyKeyConfirmation (g : GCMSpec) (st : KEState) (myId peerId : String)
    (sessionKey : Nat) (sessionId : String) (ivBytes : List Nat) (now : Int) :
    Bool × KEState :=
  let confirmationMessage := "KEY_CONFIRMATION_" ++ sessionId ++ "_" ++ toString now
  let encrypted := encryptMessage g (utf8Encode confirmationMessage) sessionKey ivBytes
  let result := confirm st myId
    { userId := peerId, sessionId := sessionId,
      encryptedConfirmation := stringOfCodes encrypted.encryptedContent,
      iv := stringOfCodes encrypted.iv,
      authTag := stringOfCodes encrypted.authTag } now
  (decide (result.1 = .confirmed), result.2)

theorem stringOfCodes_eq_empty_iff (l : List Nat) : stringOfCodes l = "" ↔ l = [] := by
  cases l <;> simp [stringOfCodes, String.ext_iff]

theorem utf8EncodeChar_ne_nil (c : Char) : utf8EncodeChar c ≠ [] := by
  simp only [utf8EncodeChar]
  split_ifs <;> simp

theorem utf8Encode_append (a b : String) :
    utf8Encode (a ++ b) = utf8Encode a ++ utf8Encode b := by
  simp [utf8Encode, String.data_append]

theorem utf8Encode_ne_nil_of_append (a b : String) (ha : utf8Encode a ≠ []) :
    utf8Encode (a ++ b) ≠ [] := by
  rw [utf8Encode_append]
  simp only [ne_eq, List.append_eq_nil]
  intro h
  exact ha h.1

theorem encryptMessage_fields_ne_empty (g : GCMSpec) (msg : List Nat) (key : Nat)
    (ivBytes : List Nat) (hmsg : msg ≠ []) (hiv : ivBytes ≠ []) :
    stringOfCodes (encryptMessage g msg key ivBytes).encryptedContent ≠ "" ∧
    stringOfCodes (encryptMessage g msg key ivBytes).iv ≠ "" ∧
    stringOfCodes (encryptMessage g msg key ivBytes).authTag ≠ "" := by
  have htag16 := g.tagFn_len key ivBytes (xorStream (g.keystream key ivBytes) 0 msg)
  simp only [encryptMessage, aesGcmEncrypt]
  rw [append_take_tag _ _ htag16, append_drop_tag _ _ htag16]
  refine ⟨?_, ?_, ?_⟩
  · rw [Ne, stringOfCodes_eq_empty_iff, base64_nil_iff]
    intro h
    have hlen := xorStream_length (g.keystream key ivBytes) 0 msg
    rw [h] at hlen
    exact hmsg (List.eq_nil_of_length_eq_zero hlen.symm)
  · rw [Ne, stringOfCodes_eq_empty_iff, base64_nil_iff]
    exact hiv
  · rw [Ne, stringOfCodes_eq_empty_iff, base64_nil_iff]
    intro h
    rw [h] at htag16
    simp at htag16

theorem sendAndVerify_reduces (g : GCMSpec) (st : KEState) (myId peerId : String)
    (key : Nat) (sessionId : String) (iv : List Nat) (now : Int)
    (hsid : sessionId ≠ "") (hpeer : peerId ≠ "") (hiv : iv ≠ []) :
    sendAndVerifyKeyConfirmation g st myId peerId key sessionId iv now =
      (match st.sessions.find? (confirmFilter sessionId myId peerId) with
        | none => (false, st)
        | some _ =>
            (true, ⟨updateFirst (confirmFilter sessionId myId peerId)
              (fun s =>
                { s with
                  confirmationReceived := true
                  confirmationTimestamp := some now }) st.sessions⟩)) := by
  have hm : utf8Encode ("KEY_CONFIRMATION_" ++ sessionId ++ "_" ++ toString now) ≠ [] := by
    apply utf8Encode_ne_nil_of_append
    apply utf8Encode_ne_nil_of_append
    apply utf8Encode_ne_nil_of_append
    decide
  obtain ⟨h1, h2, h3⟩ := encryptMessage_fields_ne_empty g
    (utf8Encode ("KEY_CONFIRMATION_" ++ sessionId ++ "_" ++ toString now)) key iv hm hiv
  rcases hfind : st.sessions.find? (confirmFilter sessionId myId peerId) with _ | ke
  · simp [sendAndVerifyKeyConfirmation, confirm, hpeer, hsid, h1, h2, h3, hfind]
  · simp [sendAndVerifyKeyConfirmation, confirm, hpeer, hsid, h1, h2, h3, hfind]

/-- C10: the key-confirmation step reports success exactly when the server
accepts the confirm POST, independently of the confirmation token itself:
(i) the entire outcome — returned flag and resulting server state — is
identical across any two GCM instantiations, session keys and IVs, so an
encrypted token the peer could never decrypt confirms just as well (the
server's confirm handler never decrypts or validates it); (ii) when no
matching completed session exists the POST fails and `false` is returned
with the state untouched; (iii) when a matching completed session exists
the POST succeeds, `true` is returned, and the session is marked
`confirmationReceived` — hence a confirmed handshake does not by itself
establish that the two parties hold matching session keys. -/
theorem C10_confirmation_not_validated (g g2 : GCMSpec) (st : KEState)
    (myId peerId sessionId : String) (key key2 : Nat) (iv iv2 : List Nat) (now : Int)
    (hsid : sessionId ≠ "") (hpeer : peerId ≠ "") (hiv : iv ≠ []) (hiv2 : iv2 ≠ []) :
    (sendAndVerifyKeyConfirmation g st myId peerId key sessionId iv now =
        sendAndVerifyKeyConfirmation g2 st myId peerId key2 sessionId iv2 now)
    ∧ (st.sessions.find? (confirmFilter sessionId myId peerId) = none →
        sendAndVerifyKeyConfirmation g st myId peerId key sessionId iv now = (false, st))
    ∧ (∀ ke, st.sessions.find? (confirmFilter sessionId myId peerId) = some ke →
        (sendAndVerifyKeyConfirmation g st myId peerId key sessionId iv now).1 = true ∧
        (sendAndVerifyKeyConfirmation g st myId peerId key sessionId iv now).2 =
          ⟨updateFirst (confirmFilter sessionId myId peerId)
            (fun s =>
              { s with
                confirmationReceived := true
                confirmationTimestamp := some now }) st.sessions⟩) := by
  rw [sendAndVerify_reduces g st myId peerId key sessionId iv now hsid hpeer hiv,
    sendAndVerify_reduces g2 st myId peerId key2 sessionId iv2 now hsid hpeer hiv2]
  refine ⟨rfl, fun hfind => by simp [hfind], fun ke hfind => by simp [hfind]⟩

/-- C10, witness: against a concrete completed session, confirmation under
two different session keys and IVs gives the identical (successful)
outcome. -/
theorem C10_witness :
    (sendAndVerifyKeyConfirmation zeroGCM ⟨[completedSession]⟩ "alice" "bob" 1 "s1"
        (List.replicate 12 0) 42 =
      sendAndVerifyKeyConfirmation zeroGCM ⟨[completedSession]⟩ "alice" "bob" 2 "s1"
        (List.replicate 12 5) 42)
    ∧ ((⟨[completedSession]⟩ : KEState).sessions.find? (confirmFilter "s1" "alice" "bob") =
          none →
        sendAndVerifyKeyConfirmation zeroGCM ⟨[completedSession]⟩ "alice" "bob" 1 "s1"
          (List.replicate 12 0) 42 = (false, ⟨[completedSession]⟩))
    ∧ (∀ ke, (⟨[completedSession]⟩ : KEState).sessions.find?
          (confirmFilter "s1" "alice" "bob") = some ke →
        (sendAndVerifyKeyConfirmation zeroGCM ⟨[completedSession]⟩ "alice" "bob" 1 "s1"
          (List.replicate 12 0) 42).1 = true ∧
        (sendAndVerifyKeyConfirmation zeroGCM ⟨[completedSession]⟩ "alice" "bob" 1 "s1"
          (List.replicate 12 0) 42).2 =
          ⟨updateFirst (confirmFilter "s1" "alice" "bob")
            (fun s =>
              { s with
                confirmationReceived := true
                confirmationTimestamp := some 42 }) [completedSession]⟩) :=
  C10_confirmation_not_validated zeroGCM zeroGCM ⟨[completedSession]⟩ "alice" "bob" "s1"
    1 2 (List.replicate 12 0) (List.replicate 12 5) 42
    (by decide) (by decide) (by decide) (by decide)
